import Mathlib

/-!
# can-hwmon: CAN bus termination hardware status (`src/can-hwmon.c`)

A shallow embedding of the driver and the properties of its three layers:

* the attribute read handlers `bustermon_show_state` / `bustermon_show_status`;
* the device-tree binding step `bustermon_parse_dt`;
* the life cycle `bustermon_dt_probe` / `bustermon_remove`.

The kernel services the driver calls (GPIO, hwmon, sysfs, device tree) are not part of
the driver.  Their observable effect is recorded in an explicit `Kernel` state (owned
GPIOs, registered hwmon device, published attribute files, and the chronological log of
calls), and their success or failure is supplied by a `Services` record, so that the
general statements quantify over every behaviour of those services.

Conventions: a service result is an errno `e : Nat`; the C return value is `-e`
(`0` on success).  GPIO numbers are the `unsigned int` values held in `gpio_num`.
Diagnostic messages (`dev_err`, `dev_dbg`, `dev_info`) and the release of memory
(`kfree`) change none of the tracked resources and are left out; the two allocations
can fail (`kzalloc_pdata`, `kzalloc_data` of `Services`).
-/

namespace CanHwmon

/-! ## Constants and data model -/

/-- Size of `enum bustermon_bits`: `CAN0 = 0`, `CAN1 = 1`, `MAX_CANS = 2`. -/
abbrev MAX_CANS : Nat := 2

/-- First channel of `enum bustermon_bits`. -/
def CAN0 : Fin MAX_CANS := 0

/-- Second channel of `enum bustermon_bits`. -/
def CAN1 : Fin MAX_CANS := 1

/-- Errno values used by the driver (`include/uapi/asm-generic/errno*.h`). -/
def ENOENT : Int := 2
def ENOMEM : Int := 12
def EBUSY : Int := 16
def ENODEV : Int := 19
def EINVAL : Int := 22
def ENODATA : Int := 61

/-- Length of `bustermon_platform_data.name` (`PLATFORM_NAME_SIZE` of
`linux/mod_devicetable.h`). -/
def PLATFORM_NAME_SIZE : Nat := 20

/-- The binding table `struct bustermon_platform_data`: `gpios[MAX_CANS]` and `name`. -/
structure bustermon_platform_data where
  gpios : Fin MAX_CANS → Nat
  name : String

/-- The instance state `struct bustermon_data`; the hwmon device it points to is the
single device tracked in `Kernel`. -/
structure bustermon_data where
  pdata : bustermon_platform_data

/-- The array `can_names[]`, with its `[MAX_CANS] = "undef"` sentinel entry. -/
def can_names : List String := ["can0", "can1", "undef"]

/-- The five `DEVICE_ATTR` descriptors. -/
inductive device_attribute
  | dev_attr_can0_status
  | dev_attr_can1_status
  | dev_attr_can0_value
  | dev_attr_can1_value
  | dev_attr_name
  deriving DecidableEq, Repr

/-- The `attr.name` field of each descriptor. -/
def device_attribute.attr_name : device_attribute → String
  | .dev_attr_can0_status => "can0_status"
  | .dev_attr_can1_status => "can1_status"
  | .dev_attr_can0_value => "can0_value"
  | .dev_attr_can1_value => "can1_value"
  | .dev_attr_name => "name"

/-! ## C strings -/

/-- The string terminator. -/
def NUL : Char := Char.ofNat 0

/-- C `strlen`: number of characters before the terminator (the end of the list also
terminates). -/
def strlen : List Char → Nat
  | [] => 0
  | c :: cs => if c = NUL then 0 else strlen cs + 1

/-- C `strncmp` as in the kernel's `lib/string.c`: compare at most `count` characters,
stop at the first difference or at the terminator. -/
def strncmp : List Char → List Char → Nat → Int
  | _, _, 0 => 0
  | cs, ct, count + 1 =>
    let c1 := cs.headD NUL
    let c2 := ct.headD NUL
    if c1 ≠ c2 then (if c1 < c2 then -1 else 1)
    else if c1 = NUL then 0
    else strncmp cs.tail ct.tail count

/-- The value of `sprintf(buf, ...)`: the text written and the returned length, counted
in characters (the byte count for the ASCII texts the handlers write). -/
def sprintf (text : String) : String × Nat := (text, text.length)

/-! ## Attribute read handlers -/

/-- Handler `bustermon_show_state` (source lines 57-70). `gpio_get_value` is the live
electrical level of each GPIO, `data` the table from `dev_get_drvdata`, `attr_name` is
`attr->attr.name`. -/
def bustermon_show_state (gpio_get_value : Nat → Int) (data : bustermon_platform_data)
    (attr_name : String) : String × Nat :=
  let state : Nat := (List.finRange MAX_CANS).foldl
    (fun state cntr =>
      if strncmp attr_name.data (can_names.getD cntr.val "").data
          (strlen (can_names.getD cntr.val "").data) = 0
      then (if gpio_get_value (data.gpios cntr) ≠ 0 then 1 else 0)
      else state) 0
  sprintf (toString state ++ "\n")

/-- Handler `bustermon_show_status` (source lines 72-88). -/
def bustermon_show_status (gpio_get_value : Nat → Int) (data : bustermon_platform_data)
    (attr_name : String) : String × Nat :=
  let r : String × Nat := (List.finRange MAX_CANS).foldl
    (fun (acc : String × Nat) cntr =>
      if strncmp attr_name.data (can_names.getD cntr.val "").data
          (strlen (can_names.getD cntr.val "").data) = 0
      then ((if gpio_get_value (data.gpios cntr) ≠ 0 then "ON" else "OFF"), cntr.val)
      else acc) ("", MAX_CANS)
  sprintf (can_names.getD r.2 "" ++ " termination is: " ++ r.1 ++ "\n")

/-- Handler `bustermon_show_name` (source lines 90-96). -/
def bustermon_show_name (data : bustermon_platform_data) : String × Nat :=
  sprintf (data.name ++ "\n")

/-- The `show` callback wired to each descriptor by the `DEVICE_ATTR` lines 98-102,
called with the descriptor's own name. -/
def device_attribute.show (a : device_attribute) (gpio_get_value : Nat → Int)
    (data : bustermon_platform_data) : String × Nat :=
  match a with
  | .dev_attr_can0_status => bustermon_show_status gpio_get_value data a.attr_name
  | .dev_attr_can1_status => bustermon_show_status gpio_get_value data a.attr_name
  | .dev_attr_can0_value => bustermon_show_state gpio_get_value data a.attr_name
  | .dev_attr_can1_value => bustermon_show_state gpio_get_value data a.attr_name
  | .dev_attr_name => bustermon_show_name data

/-! ## Kernel state and external services -/

/-- One call into an external kernel service, with the errno it answered. -/
inductive Call
  | gpio_request (gpio : Nat) (label : String) (errno : Nat)
  | gpio_direction_input (gpio : Nat) (errno : Nat)
  | gpio_free (gpio : Nat)
  | hwmon_device_register (errno : Nat)
  | hwmon_device_unregister
  | device_create_file (a : device_attribute) (errno : Nat)
  | device_remove_file (a : device_attribute)
  deriving DecidableEq, Repr

/-- The resources held in the kernel on behalf of the driver. -/
structure Kernel where
  /-- GPIO numbers requested and not yet freed, most recent first. -/
  owned : List Nat
  /-- Whether the hwmon device is registered. -/
  hwmon_registered : Bool
  /-- Attribute files published on the hwmon device, in creation order. -/
  files : List device_attribute
  /-- Value of `platform_get_drvdata(pdev)`. -/
  pdev_drvdata : Option bustermon_data
  /-- Value of `dev_get_drvdata(hwmon_dev)`. -/
  hwmon_drvdata : Option bustermon_platform_data
  /-- Every service call so far, oldest first. -/
  log : List Call

/-- A kernel holding nothing for the driver. -/
def Kernel.empty : Kernel :=
  { owned := [], hwmon_registered := false, files := [], pdev_drvdata := none,
    hwmon_drvdata := none, log := [] }

/-- Behaviour of the external services: each answer is an errno (`0` = success) and may
depend on the whole kernel state at the time of the call.  `unregister_reclaims_files`
says whether `hwmon_device_unregister` also deletes the attribute files still present. -/
structure Services where
  kzalloc_pdata : Bool
  kzalloc_data : Bool
  gpio_request : Kernel → Nat → String → Nat
  gpio_direction_input : Kernel → Nat → Nat
  hwmon_device_register : Kernel → Nat
  device_create_file : Kernel → device_attribute → Nat
  unregister_reclaims_files : Bool

/-- Service `gpio_request(gpio, label)`: on success the GPIO becomes owned. -/
def gpio_request (sv : Services) (gpio : Nat) (label : String) (k : Kernel) : Int × Kernel :=
  let e := sv.gpio_request k gpio label
  (-(e : Int),
   { k with owned := if e = 0 then gpio :: k.owned else k.owned,
            log := k.log ++ [Call.gpio_request gpio label e] })

/-- Service `gpio_direction_input(gpio)`. -/
def gpio_direction_input (sv : Services) (gpio : Nat) (k : Kernel) : Int × Kernel :=
  let e := sv.gpio_direction_input k gpio
  (-(e : Int), { k with log := k.log ++ [Call.gpio_direction_input gpio e] })

/-- Service `gpio_free(gpio)`: one ownership of the GPIO is given back. -/
def gpio_free (gpio : Nat) (k : Kernel) : Kernel :=
  { k with owned := k.owned.erase gpio, log := k.log ++ [Call.gpio_free gpio] }

/-- Service `hwmon_device_register(dev)`; the result is `0` for a valid device pointer
and `-errno` for an `ERR_PTR`. -/
def hwmon_device_register (sv : Services) (k : Kernel) : Int × Kernel :=
  let e := sv.hwmon_device_register k
  (-(e : Int),
   { k with hwmon_registered := if e = 0 then true else k.hwmon_registered,
            log := k.log ++ [Call.hwmon_device_register e] })

/-- Service `hwmon_device_unregister(hwmon_dev)`. -/
def hwmon_device_unregister (sv : Services) (k : Kernel) : Kernel :=
  { k with hwmon_registered := false,
           files := if sv.unregister_reclaims_files then [] else k.files,
           log := k.log ++ [Call.hwmon_device_unregister] }

/-- Service `device_create_file(hwmon_dev, &attr)`: on success the file is published. -/
def device_create_file (sv : Services) (a : device_attribute) (k : Kernel) : Int × Kernel :=
  let e := sv.device_create_file k a
  (-(e : Int),
   { k with files := if e = 0 then k.files ++ [a] else k.files,
            log := k.log ++ [Call.device_create_file a e] })

/-- Service `device_remove_file(hwmon_dev, &attr)`. -/
def device_remove_file (a : device_attribute) (k : Kernel) : Kernel :=
  { k with files := k.files.erase a, log := k.log ++ [Call.device_remove_file a] }

/-- Kernel `platform_set_drvdata(pdev, data)`. -/
def platform_set_drvdata (data : Option bustermon_data) (k : Kernel) : Kernel :=
  { k with pdev_drvdata := data }

/-- Kernel `dev_set_drvdata(hwmon_dev, pdata)`. -/
def dev_set_drvdata (pdata : Option bustermon_platform_data) (k : Kernel) : Kernel :=
  { k with hwmon_drvdata := pdata }

/-! ## Device description -/

/-- A device-tree node as the driver queries it: `gpios` holds, for each reference of
the `gpios` property, the GPIO number it resolves to; `gpio_names` holds the strings of
`gpio-names`. -/
structure device_node where
  gpios : List Nat
  gpio_names : List String

/-- The bus device: its optional node, optional static platform data, and `dev_name`. -/
structure platform_device where
  of_node : Option device_node
  platform_data : Option bustermon_platform_data
  dev_name : String

/-- Query `of_count_phandle_with_args(node, "gpios", "#gpio-cells")`. -/
def of_count_phandle_with_args (node : device_node) : Int := node.gpios.length

/-- Query `of_property_count_strings(node, "gpio-names")`. -/
def of_property_count_strings (node : device_node) : Int := node.gpio_names.length

/-- Query `of_property_match_string(node, "gpio-names", s)`: index of the first string
equal to `s`, or `-ENODATA`. -/
def of_property_match_string (node : device_node) (s : String) : Int :=
  if node.gpio_names.indexOf s < node.gpio_names.length then node.gpio_names.indexOf s
  else -ENODATA

/-- Query `of_get_named_gpio_flags(node, "gpios", index, NULL)` as stored in the
`unsigned int gpio_num`; an index past the list answers `-ENOENT`, i.e. `2^32 - 2`. -/
def of_get_named_gpio_flags (node : device_node) (index : Int) : Nat :=
  node.gpios.getD index.toNat (2 ^ 32 - 2)

/-- A `struct bustermon_platform_data *` result: `NULL`, an `ERR_PTR`, or a table. -/
inductive pdata_ptr
  | NULL
  | ERR (err : Int)
  | PTR (pdata : bustermon_platform_data)

/-- Kernel `ERR_PTR(retval)`: the value `0` is the null pointer, an errno in
`-MAX_ERRNO .. -1` (all that services answer) is an error pointer. -/
def ERR_PTR (retval : Int) : pdata_ptr := if retval = 0 then .NULL else .ERR retval

/-- Strict test `IS_ERR(ptr)`. -/
def pdata_ptr.IS_ERR : pdata_ptr → Bool
  | .ERR _ => true
  | _ => false

/-- Kernel `PTR_ERR(ptr)` of an error pointer. -/
def pdata_ptr.PTR_ERR : pdata_ptr → Option Int
  | .ERR e => some e
  | _ => none

/-- Test `ptr == NULL`. -/
def pdata_ptr.isNULL : pdata_ptr → Bool
  | .NULL => true
  | _ => false

/-- The table carried by a pointer that is neither null nor an error. -/
def pdata_ptr.table : pdata_ptr → Option bustermon_platform_data
  | .PTR p => some p
  | _ => none

/-! ## Binding resolver: `bustermon_parse_dt` -/

/-- How the binding loop (source lines 142-162) is left: it ran to completion, or it
jumped to `err` with the current table and `retval`. -/
inductive parse_exit
  | done (pdata : bustermon_platform_data)
  | err (pdata : bustermon_platform_data) (retval : Int)

/-- The loop `for (cntr = CAN0; cntr < MAX_CANS; cntr++)` of source lines 142-162,
over the channels still to visit. -/
def parse_dt_loop (sv : Services) (node : device_node) :
    List (Fin MAX_CANS) → bustermon_platform_data → Int → Kernel → parse_exit × Kernel
  | [], pdata, _, k => (.done pdata, k)
  | cntr :: rest, pdata, retval, k =>
    let index := of_property_match_string node (can_names.getD cntr.val "")
    if index ≥ 0 then
      let gpio_num := of_get_named_gpio_flags node index
      let rq := gpio_request sv gpio_num (can_names.getD cntr.val "") k
      if rq.1 < 0 then (.err pdata rq.1, rq.2)
      else
        let di := gpio_direction_input sv gpio_num rq.2
        if di.1 < 0 then (.err pdata di.1, gpio_free gpio_num di.2)
        else parse_dt_loop sv node rest
          { pdata with gpios := Function.update pdata.gpios cntr gpio_num } di.1 di.2
    else (.err pdata retval, k)

/-- The loop after label `err` (source lines 168-171): free every table entry that
is `> 0`. -/
def parse_dt_err (pdata : bustermon_platform_data) (k : Kernel) : Kernel :=
  (List.finRange MAX_CANS).foldl
    (fun k cntr => if pdata.gpios cntr > 0 then gpio_free (pdata.gpios cntr) k else k) k

/-- Function `bustermon_parse_dt` (source lines 111-174). -/
def bustermon_parse_dt (sv : Services) (pdev : platform_device) (k : Kernel) :
    pdata_ptr × Kernel :=
  match pdev.of_node with
  | none => (ERR_PTR (-ENODEV), k)
  | some node =>
    let length := of_count_phandle_with_args node
    if length < 1 then (ERR_PTR (-EINVAL), k)
    else if of_property_count_strings node ≠ of_count_phandle_with_args node then
      (ERR_PTR (-ENODATA), k)
    else if !sv.kzalloc_pdata then (ERR_PTR (-ENOMEM), k)
    else
      match parse_dt_loop sv node (List.finRange MAX_CANS)
          { gpios := fun _ => 0, name := "" } 0 k with
      | (.done pdata, k1) => (.PTR pdata, k1)
      | (.err pdata retval, k1) => (ERR_PTR retval, parse_dt_err pdata k1)

/-! ## Lifecycle controller: `bustermon_dt_probe` and `bustermon_remove` -/

/-- Label `err_free_mem` (source lines 258-262): unregister the hwmon device; the two
`kfree` calls touch memory only. -/
def err_free_mem (sv : Services) (k : Kernel) : Kernel := hwmon_device_unregister sv k

/-- Label `unregister_name`, falling through to `err_free_mem`. -/
def unregister_name (sv : Services) (k : Kernel) : Kernel :=
  err_free_mem sv (device_remove_file .dev_attr_name k)

/-- Label `unregister_can0`, falling through to `unregister_name`. -/
def unregister_can0 (sv : Services) (k : Kernel) : Kernel :=
  unregister_name sv (device_remove_file .dev_attr_can0_status k)

/-- Label `unregister_can1`, falling through to `unregister_can0`. -/
def unregister_can1 (sv : Services) (k : Kernel) : Kernel :=
  unregister_can0 sv (device_remove_file .dev_attr_can1_status k)

/-- Label `unregister_all`, falling through to `unregister_can1`. -/
def unregister_all (sv : Services) (k : Kernel) : Kernel :=
  unregister_can1 sv (device_remove_file .dev_attr_can0_value k)

/-- Kernel `strlcpy(dst, src, size)`: at most `size - 1` characters are copied (bytes,
for an ASCII device name). -/
def strlcpy (src : String) (size : Nat) : String := String.mk (src.data.take (size - 1))

/-- Source lines 189-264 of `bustermon_dt_probe`: everything after the table pointer
`pdata` has been chosen. -/
def bustermon_dt_probe_with (sv : Services) (pdev : platform_device)
    (pdata : Option bustermon_platform_data) (k : Kernel) : Int × Kernel :=
  match pdata with
  | none => (-ENODEV, k)
  | some pdata =>
    if !sv.kzalloc_data then (-ENOMEM, k)
    else
      let pdata := { pdata with name := strlcpy pdev.dev_name PLATFORM_NAME_SIZE }
      let k := platform_set_drvdata (some { pdata := pdata }) k
      let reg := hwmon_device_register sv k
      if reg.1 ≠ 0 then (reg.1, reg.2)
      else
        let k := dev_set_drvdata (some pdata) reg.2
        let c1 := device_create_file sv .dev_attr_name k
        if c1.1 ≠ 0 then (c1.1, err_free_mem sv c1.2)
        else
          let c2 := device_create_file sv .dev_attr_can0_status c1.2
          if c2.1 ≠ 0 then (c2.1, unregister_name sv c2.2)
          else
            let c3 := device_create_file sv .dev_attr_can1_status c2.2
            if c3.1 ≠ 0 then (c3.1, unregister_can0 sv c3.2)
            else
              let c4 := device_create_file sv .dev_attr_can0_value c3.2
              if c4.1 ≠ 0 then (c4.1, unregister_can1 sv c4.2)
              else
                let c5 := device_create_file sv .dev_attr_can1_value c4.2
                if c5.1 ≠ 0 then (c5.1, unregister_all sv c5.2)
                else (0, c5.2)

/-- Function `bustermon_dt_probe` (source lines 176-264): the returned status and the
kernel state it leaves. -/
def bustermon_dt_probe (sv : Services) (pdev : platform_device) (k : Kernel) : Int × Kernel :=
  let r := bustermon_parse_dt sv pdev k
  match r.1 with
  | .ERR e => (e, r.2)
  | .NULL => bustermon_dt_probe_with sv pdev pdev.platform_data r.2
  | .PTR pdata => bustermon_dt_probe_with sv pdev (some pdata) r.2

/-- Function `bustermon_remove` (source lines 266-278); `none` when there is no
instance state to dereference. -/
def bustermon_remove (sv : Services) (k : Kernel) : Option (Int × Kernel) :=
  match k.pdev_drvdata with
  | none => none
  | some _ =>
    let k := device_remove_file .dev_attr_name k
    let k := device_remove_file .dev_attr_can0_status k
    let k := device_remove_file .dev_attr_can1_status k
    let k := hwmon_device_unregister sv k
    let k := dev_set_drvdata none k
    let k := platform_set_drvdata none k
    some (0, k)

/-! ## Names used by the statements -/

/-- The order in which `bustermon_dt_probe` creates the attribute files. -/
def publication_order : List device_attribute :=
  [.dev_attr_name, .dev_attr_can0_status, .dev_attr_can1_status, .dev_attr_can0_value,
   .dev_attr_can1_value]

/-- Services in which a GPIO already owned cannot be requested again (`-EBUSY`, the
exclusive-ownership rule of the GPIO subsystem), registration answers `register_errno`,
the creation of file `a` answers `create_errno a`, and nothing else fails. -/
def exclusive_services (reclaim : Bool) (register_errno : Nat)
    (create_errno : device_attribute → Nat) : Services :=
  { kzalloc_pdata := true, kzalloc_data := true,
    gpio_request := fun k gpio _ => if gpio ∈ k.owned then 16 else 0,
    gpio_direction_input := fun _ _ => 0,
    hwmon_device_register := fun _ => register_errno,
    device_create_file := fun _ a => create_errno a,
    unregister_reclaims_files := reclaim }

/-- Services that never fail. -/
def reliable_services : Services :=
  { kzalloc_pdata := true, kzalloc_data := true,
    gpio_request := fun _ _ _ => 0,
    gpio_direction_input := fun _ _ => 0,
    hwmon_device_register := fun _ => 0,
    device_create_file := fun _ _ => 0,
    unregister_reclaims_files := false }

/-- A bus device described by a node with the given `gpios` and `gpio-names`, without
static platform data. -/
def described_device (gpios : List Nat) (gpio_names : List String) : platform_device :=
  { of_node := some { gpios := gpios, gpio_names := gpio_names }, platform_data := none,
    dev_name := "can-hwmon" }

end CanHwmon

/-! ## Attribute provider: matching by name and the text written -/

namespace CanHwmon

theorem finRange_channels : List.finRange MAX_CANS = [CAN0, CAN1] := rfl

theorem can_names_CAN0 : can_names.getD CAN0.val "" = "can0" := rfl

theorem can_names_CAN1 : can_names.getD CAN1.val "" = "can1" := rfl

theorem strlen_eq_length (ct : List Char) (h : NUL ∉ ct) : strlen ct = ct.length := by
  induction ct with
  | nil => rfl
  | cons c ct ih =>
    have hc : c ≠ NUL := fun e => h (e ▸ List.mem_cons_self _ _)
    have ht : NUL ∉ ct := fun m => h (List.mem_cons_of_mem _ m)
    simp [strlen, hc, ih ht]

/-- Comparing over the whole length of a terminator-free `ct` succeeds exactly when
`ct` starts `cs`. -/
theorem strncmp_eq_zero_iff (ct : List Char) (h : NUL ∉ ct) (cs : List Char) :
    strncmp cs ct ct.length = 0 ↔ ct <+: cs := by
  induction ct generalizing cs with
  | nil => simp [strncmp]
  | cons c ct ih =>
    have hc : c ≠ NUL := fun e => h (e ▸ List.mem_cons_self _ _)
    have ht : NUL ∉ ct := fun m => h (List.mem_cons_of_mem _ m)
    cases cs with
    | nil =>
      have : NUL ≠ c := fun e => hc e.symm
      simp [strncmp, this]
      split <;> simp
    | cons a cs =>
      by_cases hac : a = c
      · subst hac
        simp [strncmp, hc, ih ht cs, List.cons_prefix_cons]
      · have hca : ¬ c = a := fun e => hac e.symm
        simp [strncmp, hac, hca, List.cons_prefix_cons]
        split <;> simp

/-- The test both handlers apply to an attribute name, for either channel. -/
theorem can_name_test (cs : List Char) (cntr : Fin MAX_CANS) :
    strncmp cs (can_names.getD cntr.val "").data (strlen (can_names.getD cntr.val "").data) = 0
      ↔ (can_names.getD cntr.val "").data <+: cs := by
  have h : NUL ∉ (can_names.getD cntr.val "").data := by
    revert cntr; decide
  rw [strlen_eq_length _ h]
  exact strncmp_eq_zero_iff _ h cs

/-- No attribute name starts with both channel names. -/
theorem can_names_exclusive (cs : List Char) : ¬ ("can0".data <+: cs ∧ "can1".data <+: cs) := by
  rintro ⟨h0, h1⟩
  have := List.prefix_of_prefix_length_le h0 h1 (by decide)
  revert this
  decide

theorem show_state_loop (gpio_get_value : Nat → Int) (data : bustermon_platform_data)
    (attr_name : String) :
    bustermon_show_state gpio_get_value data attr_name =
      sprintf (toString
        (if "can1".data <+: attr_name.data then
          (if gpio_get_value (data.gpios CAN1) ≠ 0 then 1 else 0)
         else if "can0".data <+: attr_name.data then
          (if gpio_get_value (data.gpios CAN0) ≠ 0 then 1 else 0)
         else 0) ++ "\n") := by
  have e0 := can_name_test attr_name.data CAN0
  have e1 := can_name_test attr_name.data CAN1
  rw [can_names_CAN0] at e0
  rw [can_names_CAN1] at e1
  simp only [bustermon_show_state, finRange_channels, List.foldl_cons, List.foldl_nil,
    can_names_CAN0, can_names_CAN1, e0, e1]

theorem show_status_loop (gpio_get_value : Nat → Int) (data : bustermon_platform_data)
    (attr_name : String) :
    bustermon_show_status gpio_get_value data attr_name =
      sprintf
        (if "can1".data <+: attr_name.data then
          "can1" ++ " termination is: " ++
            (if gpio_get_value (data.gpios CAN1) ≠ 0 then "ON" else "OFF") ++ "\n"
         else if "can0".data <+: attr_name.data then
          "can0" ++ " termination is: " ++
            (if gpio_get_value (data.gpios CAN0) ≠ 0 then "ON" else "OFF") ++ "\n"
         else "undef" ++ " termination is: " ++ "" ++ "\n") := by
  have e0 := can_name_test attr_name.data CAN0
  have e1 := can_name_test attr_name.data CAN1
  rw [can_names_CAN0] at e0
  rw [can_names_CAN1] at e1
  simp only [bustermon_show_status, finRange_channels, List.foldl_cons, List.foldl_nil,
    can_names_CAN0, can_names_CAN1, e0, e1]
  by_cases h1 : "can1".data <+: attr_name.data
  · simp only [h1, if_true]
    rfl
  · by_cases h0 : "can0".data <+: attr_name.data
    · simp only [h0, h1, if_true, if_false]
      rfl
    · simp only [h0, h1, if_false]
      rfl

/-- C9: `bustermon_show_state` writes exactly "1\n" when some channel name starts the
attribute name and that channel's GPIO samples non-zero, and exactly "0\n" otherwise;
the returned length is always 2; the `can0_value` file reports the GPIO of `CAN0` only
and the `can1_value` file the GPIO of `CAN1` only. -/
theorem show_state_reports_matched_channel (gpio_get_value : Nat → Int)
    (data : bustermon_platform_data) (attr_name : String) :
    (bustermon_show_state gpio_get_value data attr_name = ("1\n", 2) ↔
        ∃ c : Fin MAX_CANS, (can_names.getD c.val "").data <+: attr_name.data ∧
          gpio_get_value (data.gpios c) ≠ 0) ∧
    (bustermon_show_state gpio_get_value data attr_name = ("0\n", 2) ↔
        ¬ ∃ c : Fin MAX_CANS, (can_names.getD c.val "").data <+: attr_name.data ∧
          gpio_get_value (data.gpios c) ≠ 0) ∧
    (bustermon_show_state gpio_get_value data attr_name = ("0\n", 2) ∨
      bustermon_show_state gpio_get_value data attr_name = ("1\n", 2)) ∧
    device_attribute.dev_attr_can0_value.show gpio_get_value data =
      (if gpio_get_value (data.gpios CAN0) ≠ 0 then ("1\n", 2) else ("0\n", 2)) ∧
    device_attribute.dev_attr_can1_value.show gpio_get_value data =
      (if gpio_get_value (data.gpios CAN1) ≠ 0 then ("1\n", 2) else ("0\n", 2)) := by
  have hx := can_names_exclusive attr_name.data
  have hex : (∃ c : Fin MAX_CANS, (can_names.getD c.val "").data <+: attr_name.data ∧
          gpio_get_value (data.gpios c) ≠ 0) ↔
      (("can0".data <+: attr_name.data ∧ gpio_get_value (data.gpios CAN0) ≠ 0) ∨
       ("can1".data <+: attr_name.data ∧ gpio_get_value (data.gpios CAN1) ≠ 0)) := by
    rw [Fin.exists_fin_two]
    exact Iff.rfl
  have one : sprintf (toString 1 ++ "\n") = ("1\n", 2) := by decide
  have zero : sprintf (toString 0 ++ "\n") = ("0\n", 2) := by decide
  have ne10 : (("1\n", 2) : String × Nat) ≠ ("0\n", 2) := by decide
  have ne01 : (("0\n", 2) : String × Nat) ≠ ("1\n", 2) := by decide
  have p00 : "can0".data <+: "can0_value".data := by decide
  have p10 : ¬ "can1".data <+: "can0_value".data := by decide
  have p11 : "can1".data <+: "can1_value".data := by decide
  refine ⟨?_, ?_, ?_, ?_, ?_⟩
  · rw [hex, show_state_loop]
    by_cases h0 : "can0".data <+: attr_name.data
    · have h1 : ¬ "can1".data <+: attr_name.data := fun h1 => hx ⟨h0, h1⟩
      by_cases v0 : gpio_get_value (data.gpios CAN0) = 0 <;>
      simp [h0, h1, v0, one, zero, ne10, ne01]
    · by_cases h1 : "can1".data <+: attr_name.data <;>
      by_cases v1 : gpio_get_value (data.gpios CAN1) = 0 <;>
      simp [h0, h1, v1, one, zero, ne10, ne01]
  · rw [hex, show_state_loop]
    by_cases h0 : "can0".data <+: attr_name.data
    · have h1 : ¬ "can1".data <+: attr_name.data := fun h1 => hx ⟨h0, h1⟩
      by_cases v0 : gpio_get_value (data.gpios CAN0) = 0 <;>
      simp [h0, h1, v0, one, zero, ne10, ne01]
    · by_cases h1 : "can1".data <+: attr_name.data <;>
      by_cases v1 : gpio_get_value (data.gpios CAN1) = 0 <;>
      simp [h0, h1, v1, one, zero, ne10, ne01]
  · rw [show_state_loop]
    by_cases h1 : "can1".data <+: attr_name.data <;>
    by_cases h0 : "can0".data <+: attr_name.data <;>
    by_cases v0 : gpio_get_value (data.gpios CAN0) = 0 <;>
    by_cases v1 : gpio_get_value (data.gpios CAN1) = 0 <;>
    simp [h0, h1, v0, v1, one, zero]
  · show bustermon_show_state gpio_get_value data "can0_value" = _
    rw [show_state_loop]
    by_cases v0 : gpio_get_value (data.gpios CAN0) = 0 <;>
    simp [p00, p10, v0, one, zero]
  · show bustermon_show_state gpio_get_value data "can1_value" = _
    rw [show_state_loop]
    by_cases v1 : gpio_get_value (data.gpios CAN1) = 0 <;>
    simp [p11, v1, one, zero]

/-- C10: for an attribute name that starts with the name of channel `c`,
`bustermon_show_status` writes exactly "<channel> termination is: ON\n" when the GPIO of
`c` samples non-zero and "<channel> termination is: OFF\n" when it samples zero; the text
contains "ON" exactly when the sample is non-zero and "OFF" exactly when it is zero, so
it contains exactly one of the two. -/
theorem show_status_reports_on_off (gpio_get_value : Nat → Int)
    (data : bustermon_platform_data) (attr_name : String) (c : Fin MAX_CANS)
    (hmatch : (can_names.getD c.val "").data <+: attr_name.data) :
    (bustermon_show_status gpio_get_value data attr_name).1 =
      can_names.getD c.val "" ++ " termination is: " ++
        (if gpio_get_value (data.gpios c) ≠ 0 then "ON" else "OFF") ++ "\n" ∧
    ("ON".data <:+: (bustermon_show_status gpio_get_value data attr_name).1.data ↔
      gpio_get_value (data.gpios c) ≠ 0) ∧
    ("OFF".data <:+: (bustermon_show_status gpio_get_value data attr_name).1.data ↔
      gpio_get_value (data.gpios c) = 0) ∧
    ("ON".data <:+: (bustermon_show_status gpio_get_value data attr_name).1.data ↔
      ¬ "OFF".data <:+: (bustermon_show_status gpio_get_value data attr_name).1.data) ∧
    (bustermon_show_status gpio_get_value data attr_name).2 =
      (bustermon_show_status gpio_get_value data attr_name).1.length := by
  have hx := can_names_exclusive attr_name.data
  have on0 : "ON".data <:+: ("can0" ++ " termination is: " ++ "ON" ++ "\n").data := by decide
  have on1 : "ON".data <:+: ("can1" ++ " termination is: " ++ "ON" ++ "\n").data := by decide
  have off0 : "OFF".data <:+: ("can0" ++ " termination is: " ++ "OFF" ++ "\n").data := by decide
  have off1 : "OFF".data <:+: ("can1" ++ " termination is: " ++ "OFF" ++ "\n").data := by decide
  have non0 : ¬ "ON".data <:+: ("can0" ++ " termination is: " ++ "OFF" ++ "\n").data := by decide
  have non1 : ¬ "ON".data <:+: ("can1" ++ " termination is: " ++ "OFF" ++ "\n").data := by decide
  have noff0 : ¬ "OFF".data <:+: ("can0" ++ " termination is: " ++ "ON" ++ "\n").data := by
    decide
  have noff1 : ¬ "OFF".data <:+: ("can1" ++ " termination is: " ++ "ON" ++ "\n").data := by
    decide
  rw [show_status_loop]
  have hc : ∀ d : Fin MAX_CANS, d = CAN0 ∨ d = CAN1 := by decide
  rcases hc c with rfl | rfl
  · rw [can_names_CAN0] at hmatch ⊢
    have h1 : ¬ "can1".data <+: attr_name.data := fun h1 => hx ⟨hmatch, h1⟩
    by_cases v : gpio_get_value (data.gpios CAN0) = 0
    · simp only [sprintf, h1, hmatch, v, if_true, if_false, ne_eq, not_true_eq_false]
      exact ⟨trivial, iff_of_false non0 (fun h => h), iff_of_true off0 trivial,
        iff_of_false non0 (fun h => h off0), trivial⟩
    · simp only [sprintf, h1, hmatch, v, if_true, if_false, ne_eq, not_false_eq_true]
      exact ⟨trivial, iff_of_true on0 trivial, iff_of_false noff0 (fun h => h),
        iff_of_true on0 noff0, trivial⟩
  · rw [can_names_CAN1] at hmatch ⊢
    by_cases v : gpio_get_value (data.gpios CAN1) = 0
    · simp only [sprintf, hmatch, v, if_true, if_false, ne_eq, not_true_eq_false]
      exact ⟨trivial, iff_of_false non1 (fun h => h), iff_of_true off1 trivial,
        iff_of_false non1 (fun h => h off1), trivial⟩
    · simp only [sprintf, hmatch, v, if_true, if_false, ne_eq, not_false_eq_true]
      exact ⟨trivial, iff_of_true on1 trivial, iff_of_false noff1 (fun h => h),
        iff_of_true on1 noff1, trivial⟩

/-- Witness for C10: the `can1_status` file with the GPIO of `CAN1` high. -/
theorem show_status_reports_on_off_witness :
    (can_names.getD CAN1.val "").data <+: "can1_status".data ∧
    (bustermon_show_status (fun _ => 1) ⟨fun _ => 7, "can-hwmon"⟩ "can1_status").1 =
      "can1 termination is: ON\n" := by
  have h := show_status_reports_on_off (fun _ => 1) ⟨fun _ => 7, "can-hwmon"⟩ "can1_status"
    CAN1 (by decide)
  exact ⟨by decide, h.1.trans (by decide)⟩

end CanHwmon

/-! ## Binding resolver -/

namespace CanHwmon

theorem perm_can_names (names : List String) (h : names.Perm ["can0", "can1"]) :
    names = ["can0", "can1"] ∨ names = ["can1", "can0"] := by
  have hl := h.length_eq
  match names, hl with
  | [x, y], _ =>
    have hx : x ∈ ["can0", "can1"] := h.subset (by simp)
    have hy : y ∈ ["can0", "can1"] := h.subset (by simp)
    have hn : [x, y].Nodup := h.nodup_iff.mpr (by decide)
    simp at hx hy hn
    rcases hx with rfl | rfl <;> rcases hy with rfl | rfl <;> simp_all

theorem match_string_found (node : device_node) (s : String)
    (h : node.gpio_names.indexOf s < node.gpio_names.length) :
    of_property_match_string node s = (node.gpio_names.indexOf s : Int) := by
  simp [of_property_match_string, h]

theorem getElem?_eq_some_getD (l : List Nat) (i d : Nat) (h : i < l.length) :
    l[i]? = some (l.getD i d) := by
  simp [List.getD_eq_getElem?_getD, List.getElem?_eq_getElem h]

/-- When both channel names are listed and neither the allocator nor the GPIO service
fails, the binding loop completes with both channels bound and both GPIOs owned. -/
theorem parse_dt_success (sv : Services) (node : device_node)
    (pd : Option bustermon_platform_data) (dn : String) (k : Kernel)
    (hcount : node.gpio_names.length = node.gpios.length)
    (h0 : "can0" ∈ node.gpio_names) (h1 : "can1" ∈ node.gpio_names)
    (halloc : sv.kzalloc_pdata = true)
    (hreq : ∀ s gpio label, sv.gpio_request s gpio label = 0)
    (hdir : ∀ s gpio, sv.gpio_direction_input s gpio = 0) :
    bustermon_parse_dt sv ⟨some node, pd, dn⟩ k =
      (pdata_ptr.PTR
        { gpios := Function.update (Function.update (fun _ => 0) CAN0
            (node.gpios.getD (node.gpio_names.indexOf "can0") (2 ^ 32 - 2))) CAN1
            (node.gpios.getD (node.gpio_names.indexOf "can1") (2 ^ 32 - 2)),
          name := "" },
       { k with
          owned := node.gpios.getD (node.gpio_names.indexOf "can1") (2 ^ 32 - 2) ::
            node.gpios.getD (node.gpio_names.indexOf "can0") (2 ^ 32 - 2) :: k.owned,
          log := k.log ++
            [Call.gpio_request (node.gpios.getD (node.gpio_names.indexOf "can0") (2 ^ 32 - 2))
               "can0" 0,
             Call.gpio_direction_input
               (node.gpios.getD (node.gpio_names.indexOf "can0") (2 ^ 32 - 2)) 0,
             Call.gpio_request (node.gpios.getD (node.gpio_names.indexOf "can1") (2 ^ 32 - 2))
               "can1" 0,
             Call.gpio_direction_input
               (node.gpios.getD (node.gpio_names.indexOf "can1") (2 ^ 32 - 2)) 0] }) := by
  have l0 := List.indexOf_lt_length.mpr h0
  have l1 := List.indexOf_lt_length.mpr h1
  have hpos : ¬ ((node.gpios.length : Nat) : Int) < 1 := by
    have : 0 < node.gpios.length := by
      rw [← hcount]; exact List.length_pos_of_mem h0
    omega
  have heq : ¬ ((node.gpio_names.length : Nat) : Int) ≠ (node.gpios.length : Nat) := by
    rw [hcount]; simp
  have n0 : (0 : Int) ≤ (node.gpio_names.indexOf "can0" : Nat) := Int.natCast_nonneg _
  have n1 : (0 : Int) ≤ (node.gpio_names.indexOf "can1" : Nat) := Int.natCast_nonneg _
  have c0 : can_names.getD 0 "" = "can0" := rfl
  have c1 : can_names.getD 1 "" = "can1" := rfl
  simp only [bustermon_parse_dt, of_count_phandle_with_args, of_property_count_strings,
    hpos, heq, halloc, finRange_channels, parse_dt_loop, can_names_CAN0, can_names_CAN1, c0, c1,
    match_string_found node _ l0, match_string_found node _ l1, of_get_named_gpio_flags,
    gpio_request, gpio_direction_input, hreq, hdir, if_true, if_false, ge_iff_le, n0, n1,
    Int.toNat_ofNat, Nat.cast_zero, neg_zero, lt_self_iff_false, Bool.not_true,
    Bool.false_eq_true, List.append_assoc, List.singleton_append, List.cons_append,
    List.nil_append]
  rfl

/-- C2 (code defect): for the description gpios = [5], gpio-names = ["can0"], which has
no "can1", `bustermon_parse_dt` reaches `err` with `retval` still `0` and returns
`ERR_PTR(0)`, the null pointer: the result is not an error status, the acquired GPIO is
given back, and `bustermon_dt_probe` goes on to the static platform data: it answers
`-ENODEV` without one and succeeds on the static table when one is supplied. The same
happens when "can0" is the missing name. -/
theorem parse_dt_missing_channel_returns_null :
    (bustermon_parse_dt reliable_services (described_device [5] ["can0"]) Kernel.empty).1.isNULL
      = true ∧
    (bustermon_parse_dt reliable_services (described_device [5] ["can0"]) Kernel.empty).1.IS_ERR
      = false ∧
    (bustermon_parse_dt reliable_services (described_device [5] ["can0"]) Kernel.empty).2.owned
      = [] ∧
    (bustermon_parse_dt reliable_services (described_device [5] ["can1"]) Kernel.empty).1.isNULL
      = true ∧
    (bustermon_dt_probe reliable_services (described_device [5] ["can0"]) Kernel.empty).1
      = -ENODEV ∧
    (bustermon_dt_probe reliable_services
      { described_device [5] ["can0"] with platform_data := some ⟨fun _ => 9, ""⟩ }
      Kernel.empty).1 = 0 ∧
    (bustermon_dt_probe reliable_services
      { described_device [5] ["can0"] with platform_data := some ⟨fun _ => 9, ""⟩ }
      Kernel.empty).2.hwmon_drvdata.map (fun t => (t.gpios CAN0, t.gpios CAN1)) = some (9, 9) := by
  decide

/-- C3 (code defect): for the description gpios = [0], gpio-names = ["can0"] the call
returns no table, GPIO 0 was requested successfully and is never freed: the rollback
loop only frees table entries that are `> 0`, so GPIO 0 is owned after the call although
nothing was owned before it. -/
theorem parse_dt_rollback_leaks_gpio_zero :
    (bustermon_parse_dt reliable_services (described_device [0] ["can0"]) Kernel.empty).1.table.isNone
      = true ∧
    (bustermon_parse_dt reliable_services (described_device [0] ["can0"]) Kernel.empty).2.log
      = [Call.gpio_request 0 "can0" 0, Call.gpio_direction_input 0 0] ∧
    (bustermon_parse_dt reliable_services (described_device [0] ["can0"]) Kernel.empty).2.owned
      = [0] ∧
    Kernel.empty.owned = [] ∧
    (bustermon_parse_dt reliable_services (described_device [7] ["can0"]) Kernel.empty).2.log
      = [Call.gpio_request 7 "can0" 0, Call.gpio_direction_input 7 0, Call.gpio_free 7] := by
  decide

/-- C4 as stated fails: with no GPIO reference and one name the counts differ, yet the
status is `-EINVAL`, not `-ENODATA`. -/
theorem parse_dt_count_mismatch_counterexample :
    (([] : List Nat).length ≠ ["can0"].length) ∧
    (bustermon_parse_dt reliable_services (described_device [] ["can0"]) Kernel.empty).1.PTR_ERR
      = some (-EINVAL) ∧
    (bustermon_parse_dt reliable_services (described_device [] ["can0"]) Kernel.empty).1.PTR_ERR
      ≠ some (-ENODATA) := by
  decide

/-- C4 (amended): when the number of GPIO references differs from the number of names,
`bustermon_parse_dt` fails with `-ENODATA` if there is at least one reference and with
`-EINVAL` if there is none; in both cases the kernel state is unchanged, so no GPIO
request (nor any other service call) was made. -/
theorem parse_dt_count_mismatch (sv : Services) (node : device_node)
    (pd : Option bustermon_platform_data) (dn : String) (k : Kernel)
    (h : node.gpios.length ≠ node.gpio_names.length) :
    bustermon_parse_dt sv ⟨some node, pd, dn⟩ k =
      (if node.gpios.length < 1 then pdata_ptr.ERR (-EINVAL) else pdata_ptr.ERR (-ENODATA), k) := by
  unfold bustermon_parse_dt
  simp only [of_count_phandle_with_args, of_property_count_strings]
  by_cases h1 : node.gpios.length < 1
  · have : ((node.gpios.length : Nat) : Int) < 1 := by exact_mod_cast h1
    simp [h1, this, ERR_PTR, EINVAL]
  · have : ¬ ((node.gpios.length : Nat) : Int) < 1 := by
      intro h'; exact h1 (by exact_mod_cast h')
    have h2 : ((node.gpio_names.length : Nat) : Int) ≠ node.gpios.length := by
      intro h'; exact h (by exact_mod_cast h'.symm)
    simp [h1, this, h2, ERR_PTR, ENODATA]

/-- Witness for C4 (amended): two references and one name. -/
theorem parse_dt_count_mismatch_witness :
    ([3, 4] : List Nat).length ≠ ["can0"].length ∧
    bustermon_parse_dt reliable_services ⟨some ⟨[3, 4], ["can0"]⟩, none, "can-hwmon"⟩
      Kernel.empty = (pdata_ptr.ERR (-ENODATA), Kernel.empty) :=
  ⟨by decide, parse_dt_count_mismatch reliable_services ⟨[3, 4], ["can0"]⟩ none "can-hwmon"
    Kernel.empty (by decide)⟩

end CanHwmon

/-! ## Lifecycle controller -/

namespace CanHwmon

@[simp] theorem gpio_request_fst (sv : Services) (gpio : Nat) (label : String) (k : Kernel) :
    (gpio_request sv gpio label k).1 = -(sv.gpio_request k gpio label : Int) := rfl

@[simp] theorem hwmon_device_register_fst (sv : Services) (k : Kernel) :
    (hwmon_device_register sv k).1 = -(sv.hwmon_device_register k : Int) := rfl

@[simp] theorem hwmon_device_register_log (sv : Services) (k : Kernel) :
    (hwmon_device_register sv k).2.log =
      k.log ++ [Call.hwmon_device_register (sv.hwmon_device_register k)] := rfl

@[simp] theorem device_create_file_fst (sv : Services) (a : device_attribute) (k : Kernel) :
    (device_create_file sv a k).1 = -(sv.device_create_file k a : Int) := rfl

@[simp] theorem device_create_file_log (sv : Services) (a : device_attribute) (k : Kernel) :
    (device_create_file sv a k).2.log =
      k.log ++ [Call.device_create_file a (sv.device_create_file k a)] := rfl

@[simp] theorem platform_set_drvdata_log (d : Option bustermon_data) (k : Kernel) :
    (platform_set_drvdata d k).log = k.log := rfl

@[simp] theorem dev_set_drvdata_log (d : Option bustermon_platform_data) (k : Kernel) :
    (dev_set_drvdata d k).log = k.log := rfl

@[simp] theorem device_remove_file_log (a : device_attribute) (k : Kernel) :
    (device_remove_file a k).log = k.log ++ [Call.device_remove_file a] := rfl

@[simp] theorem hwmon_device_unregister_log (sv : Services) (k : Kernel) :
    (hwmon_device_unregister sv k).log = k.log ++ [Call.hwmon_device_unregister] := rfl

/-- Every run of the tail of the probe leaves one of eight traces: an early return, a
failed registration, a failed creation of one of the five files followed by the
removal of the earlier files in reverse order and the unregistration, or success. -/
theorem probe_with_outcomes (sv : Services) (pdev : platform_device)
    (pdata : Option bustermon_platform_data) (k : Kernel) :
    (bustermon_dt_probe_with sv pdev pdata k).2.log = k.log ∨
    (∃ e : Nat, (bustermon_dt_probe_with sv pdev pdata k).1 = -(e : Int) ∧ e ≠ 0 ∧
      (bustermon_dt_probe_with sv pdev pdata k).2.log =
        k.log ++ [Call.hwmon_device_register e]) ∨
    (∃ e : Nat, (bustermon_dt_probe_with sv pdev pdata k).1 = -(e : Int) ∧ e ≠ 0 ∧
      (bustermon_dt_probe_with sv pdev pdata k).2.log =
        k.log ++ [Call.hwmon_device_register 0,
          Call.device_create_file .dev_attr_name e,
          Call.hwmon_device_unregister]) ∨
    (∃ e : Nat, (bustermon_dt_probe_with sv pdev pdata k).1 = -(e : Int) ∧ e ≠ 0 ∧
      (bustermon_dt_probe_with sv pdev pdata k).2.log =
        k.log ++ [Call.hwmon_device_register 0,
          Call.device_create_file .dev_attr_name 0,
          Call.device_create_file .dev_attr_can0_status e,
          Call.device_remove_file .dev_attr_name,
          Call.hwmon_device_unregister]) ∨
    (∃ e : Nat, (bustermon_dt_probe_with sv pdev pdata k).1 = -(e : Int) ∧ e ≠ 0 ∧
      (bustermon_dt_probe_with sv pdev pdata k).2.log =
        k.log ++ [Call.hwmon_device_register 0,
          Call.device_create_file .dev_attr_name 0,
          Call.device_create_file .dev_attr_can0_status 0,
          Call.device_create_file .dev_attr_can1_status e,
          Call.device_remove_file .dev_attr_can0_status,
          Call.device_remove_file .dev_attr_name,
          Call.hwmon_device_unregister]) ∨
    (∃ e : Nat, (bustermon_dt_probe_with sv pdev pdata k).1 = -(e : Int) ∧ e ≠ 0 ∧
      (bustermon_dt_probe_with sv pdev pdata k).2.log =
        k.log ++ [Call.hwmon_device_register 0,
          Call.device_create_file .dev_attr_name 0,
          Call.device_create_file .dev_attr_can0_status 0,
          Call.device_create_file .dev_attr_can1_status 0,
          Call.device_create_file .dev_attr_can0_value e,
          Call.device_remove_file .dev_attr_can1_status,
          Call.device_remove_file .dev_attr_can0_status,
          Call.device_remove_file .dev_attr_name,
          Call.hwmon_device_unregister]) ∨
    (∃ e : Nat, (bustermon_dt_probe_with sv pdev pdata k).1 = -(e : Int) ∧ e ≠ 0 ∧
      (bustermon_dt_probe_with sv pdev pdata k).2.log =
        k.log ++ [Call.hwmon_device_register 0,
          Call.device_create_file .dev_attr_name 0,
          Call.device_create_file .dev_attr_can0_status 0,
          Call.device_create_file .dev_attr_can1_status 0,
          Call.device_create_file .dev_attr_can0_value 0,
          Call.device_create_file .dev_attr_can1_value e,
          Call.device_remove_file .dev_attr_can0_value,
          Call.device_remove_file .dev_attr_can1_status,
          Call.device_remove_file .dev_attr_can0_status,
          Call.device_remove_file .dev_attr_name,
          Call.hwmon_device_unregister]) ∨
    ((bustermon_dt_probe_with sv pdev pdata k).1 = 0 ∧
      (bustermon_dt_probe_with sv pdev pdata k).2.log =
        k.log ++ [Call.hwmon_device_register 0,
          Call.device_create_file .dev_attr_name 0,
          Call.device_create_file .dev_attr_can0_status 0,
          Call.device_create_file .dev_attr_can1_status 0,
          Call.device_create_file .dev_attr_can0_value 0,
          Call.device_create_file .dev_attr_can1_value 0]) := by
  cases pdata with
  | none => exact Or.inl rfl
  | some pdata =>
    generalize hP : bustermon_dt_probe_with sv pdev (some pdata) k = P
    simp only [bustermon_dt_probe_with] at hP
    split_ifs at hP with h0 h1 h2 h3 h4 h5 h6 <;> subst hP
    · exact Or.inl rfl
    · right; left
      simp at h1
      simp [h1]
    · right; right; left
      simp at h1 h2
      simp [h1, h2, err_free_mem]
    · right; right; right; left
      simp at h1 h2 h3
      simp [h1, h2, h3, err_free_mem, unregister_name]
    · right; right; right; right; left
      simp at h1 h2 h3 h4
      simp [h1, h2, h3, h4, err_free_mem, unregister_name, unregister_can0]
    · right; right; right; right; right; left
      simp at h1 h2 h3 h4 h5
      simp [h1, h2, h3, h4, h5, err_free_mem, unregister_name, unregister_can0, unregister_can1]
    · right; right; right; right; right; right; left
      simp at h1 h2 h3 h4 h5 h6
      simp [h1, h2, h3, h4, h5, h6, err_free_mem, unregister_name, unregister_can0,
        unregister_can1, unregister_all]
    · right; right; right; right; right; right; right
      simp at h1 h2 h3 h4 h5 h6
      simp [h1, h2, h3, h4, h5, h6]
/-- The traces of `probe_with_outcomes`, for the whole probe. -/
theorem probe_outcomes (sv : Services) (pdev : platform_device) (k : Kernel) :
    (bustermon_dt_probe sv pdev k).2.log = (bustermon_parse_dt sv pdev k).2.log ∨
    (∃ e : Nat, (bustermon_dt_probe sv pdev k).1 = -(e : Int) ∧ e ≠ 0 ∧
      (bustermon_dt_probe sv pdev k).2.log =
        (bustermon_parse_dt sv pdev k).2.log ++ [Call.hwmon_device_register e]) ∨
    (∃ e : Nat, (bustermon_dt_probe sv pdev k).1 = -(e : Int) ∧ e ≠ 0 ∧
      (bustermon_dt_probe sv pdev k).2.log =
        (bustermon_parse_dt sv pdev k).2.log ++ [Call.hwmon_device_register 0,
          Call.device_create_file .dev_attr_name e,
          Call.hwmon_device_unregister]) ∨
    (∃ e : Nat, (bustermon_dt_probe sv pdev k).1 = -(e : Int) ∧ e ≠ 0 ∧
      (bustermon_dt_probe sv pdev k).2.log =
        (bustermon_parse_dt sv pdev k).2.log ++ [Call.hwmon_device_register 0,
          Call.device_create_file .dev_attr_name 0,
          Call.device_create_file .dev_attr_can0_status e,
          Call.device_remove_file .dev_attr_name,
          Call.hwmon_device_unregister]) ∨
    (∃ e : Nat, (bustermon_dt_probe sv pdev k).1 = -(e : Int) ∧ e ≠ 0 ∧
      (bustermon_dt_probe sv pdev k).2.log =
        (bustermon_parse_dt sv pdev k).2.log ++ [Call.hwmon_device_register 0,
          Call.device_create_file .dev_attr_name 0,
          Call.device_create_file .dev_attr_can0_status 0,
          Call.device_create_file .dev_attr_can1_status e,
          Call.device_remove_file .dev_attr_can0_status,
          Call.device_remove_file .dev_attr_name,
          Call.hwmon_device_unregister]) ∨
    (∃ e : Nat, (bustermon_dt_probe sv pdev k).1 = -(e : Int) ∧ e ≠ 0 ∧
      (bustermon_dt_probe sv pdev k).2.log =
        (bustermon_parse_dt sv pdev k).2.log ++ [Call.hwmon_device_register 0,
          Call.device_create_file .dev_attr_name 0,
          Call.device_create_file .dev_attr_can0_status 0,
          Call.device_create_file .dev_attr_can1_status 0,
          Call.device_create_file .dev_attr_can0_value e,
          Call.device_remove_file .dev_attr_can1_status,
          Call.device_remove_file .dev_attr_can0_status,
          Call.device_remove_file .dev_attr_name,
          Call.hwmon_device_unregister]) ∨
    (∃ e : Nat, (bustermon_dt_probe sv pdev k).1 = -(e : Int) ∧ e ≠ 0 ∧
      (bustermon_dt_probe sv pdev k).2.log =
        (bustermon_parse_dt sv pdev k).2.log ++ [Call.hwmon_device_register 0,
          Call.device_create_file .dev_attr_name 0,
          Call.device_create_file .dev_attr_can0_status 0,
          Call.device_create_file .dev_attr_can1_status 0,
          Call.device_create_file .dev_attr_can0_value 0,
          Call.device_create_file .dev_attr_can1_value e,
          Call.device_remove_file .dev_attr_can0_value,
          Call.device_remove_file .dev_attr_can1_status,
          Call.device_remove_file .dev_attr_can0_status,
          Call.device_remove_file .dev_attr_name,
          Call.hwmon_device_unregister]) ∨
    ((bustermon_dt_probe sv pdev k).1 = 0 ∧
      (bustermon_dt_probe sv pdev k).2.log =
        (bustermon_parse_dt sv pdev k).2.log ++ [Call.hwmon_device_register 0,
          Call.device_create_file .dev_attr_name 0,
          Call.device_create_file .dev_attr_can0_status 0,
          Call.device_create_file .dev_attr_can1_status 0,
          Call.device_create_file .dev_attr_can0_value 0,
          Call.device_create_file .dev_attr_can1_value 0]) := by
  have hc : (∃ pd, bustermon_dt_probe sv pdev k =
        bustermon_dt_probe_with sv pdev pd (bustermon_parse_dt sv pdev k).2) ∨
      (bustermon_dt_probe sv pdev k).2 = (bustermon_parse_dt sv pdev k).2 := by
    simp only [bustermon_dt_probe]
    split
    · exact Or.inr rfl
    · exact Or.inl ⟨_, rfl⟩
    · exact Or.inl ⟨_, rfl⟩
  rcases hc with ⟨pd, h⟩ | h
  · rw [h]
    exact probe_with_outcomes sv pdev pd (bustermon_parse_dt sv pdev k).2
  · exact Or.inl (by rw [h])

theorem append_cons_not_prefix_self {α : Type} (l m : List α) (a : α) : ¬ (l ++ a :: m <+: l) := by
  intro h
  have := h.length_le
  simp at this

/-- C5 (code defect): a probe that fails at registration, or at the creation of an
attribute file, returns a non-zero status with the GPIOs requested by the binding step
still owned: no path of `bustermon_dt_probe` calls `gpio_free`.  Attribute files and the
hwmon device are released. -/
theorem probe_failure_leaks_gpios :
    (bustermon_dt_probe (exclusive_services false 12 (fun _ => 0))
      (described_device [3, 4] ["can0", "can1"]) Kernel.empty).1 = -ENOMEM ∧
    (bustermon_dt_probe (exclusive_services false 12 (fun _ => 0))
      (described_device [3, 4] ["can0", "can1"]) Kernel.empty).2.owned = [4, 3] ∧
    (bustermon_dt_probe (exclusive_services false 12 (fun _ => 0))
      (described_device [3, 4] ["can0", "can1"]) Kernel.empty).2.log =
      [Call.gpio_request 3 "can0" 0, Call.gpio_direction_input 3 0,
       Call.gpio_request 4 "can1" 0, Call.gpio_direction_input 4 0,
       Call.hwmon_device_register 12] ∧
    (bustermon_dt_probe
      (exclusive_services false 0 (fun a => if a = .dev_attr_can0_value then 12 else 0))
      (described_device [3, 4] ["can0", "can1"]) Kernel.empty).1 = -ENOMEM ∧
    (bustermon_dt_probe
      (exclusive_services false 0 (fun a => if a = .dev_attr_can0_value then 12 else 0))
      (described_device [3, 4] ["can0", "can1"]) Kernel.empty).2.owned = [4, 3] ∧
    (bustermon_dt_probe
      (exclusive_services false 0 (fun a => if a = .dev_attr_can0_value then 12 else 0))
      (described_device [3, 4] ["can0", "can1"]) Kernel.empty).2.files = [] ∧
    (bustermon_dt_probe
      (exclusive_services false 0 (fun a => if a = .dev_attr_can0_value then 12 else 0))
      (described_device [3, 4] ["can0", "can1"]) Kernel.empty).2.hwmon_registered = false ∧
    Kernel.empty.owned = [] := by
  decide

/-- C7 (code defect): for a bus device without a device-tree node `bustermon_parse_dt`
answers `ERR_PTR(-ENODEV)`, so `bustermon_dt_probe` returns `-ENODEV` at once, without
any service call, even when static platform data is supplied: the fall-back to
`pdev->dev.platform_data` is never reached for such a device.  Without static platform
data the status is `-ENODEV` as well. -/
theorem probe_without_node_ignores_platform_data (sv : Services)
    (static : bustermon_platform_data) (dn : String) (k : Kernel) :
    (bustermon_parse_dt sv ⟨none, some static, dn⟩ k).1.PTR_ERR = some (-ENODEV) ∧
    bustermon_dt_probe sv ⟨none, some static, dn⟩ k = (-ENODEV, k) ∧
    bustermon_dt_probe sv ⟨none, none, dn⟩ k = (-ENODEV, k) := by
  refine ⟨?_, ?_, ?_⟩ <;>
    simp [bustermon_dt_probe, bustermon_parse_dt, ERR_PTR, ENODEV, pdata_ptr.PTR_ERR]

/-- C8 (code defect): after a successful probe of gpios = [3, 4] named "can0", "can1",
`bustermon_remove` returns 0 with GPIOs 3 and 4 still owned (it never calls `gpio_free`)
and removes only three of the five files: can0_value and can1_value stay unless the
unregistration reclaims them; the state differs from the one before the probe, and a
second probe of the same device fails with `-EBUSY`. -/
theorem remove_is_not_inverse_of_probe :
    (bustermon_dt_probe (exclusive_services false 0 (fun _ => 0))
      (described_device [3, 4] ["can0", "can1"]) Kernel.empty).1 = 0 ∧
    (bustermon_dt_probe (exclusive_services false 0 (fun _ => 0))
      (described_device [3, 4] ["can0", "can1"]) Kernel.empty).2.files = publication_order ∧
    (bustermon_remove (exclusive_services false 0 (fun _ => 0))
      (bustermon_dt_probe (exclusive_services false 0 (fun _ => 0))
        (described_device [3, 4] ["can0", "can1"]) Kernel.empty).2).map
      (fun r => (r.1, r.2.owned, r.2.files, r.2.hwmon_registered)) =
      some (0, [4, 3], [.dev_attr_can0_value, .dev_attr_can1_value], false) ∧
    (bustermon_remove (exclusive_services true 0 (fun _ => 0))
      (bustermon_dt_probe (exclusive_services true 0 (fun _ => 0))
        (described_device [3, 4] ["can0", "can1"]) Kernel.empty).2).map
      (fun r => (r.1, r.2.owned, r.2.files, r.2.hwmon_registered)) =
      some (0, [4, 3], [], false) ∧
    (bustermon_remove (exclusive_services false 0 (fun _ => 0))
      (bustermon_dt_probe (exclusive_services false 0 (fun _ => 0))
        (described_device [3, 4] ["can0", "can1"]) Kernel.empty).2).map
      (fun r => r.2.log.drop 10) =
      some [Call.device_remove_file .dev_attr_name,
            Call.device_remove_file .dev_attr_can0_status,
            Call.device_remove_file .dev_attr_can1_status,
            Call.hwmon_device_unregister] ∧
    (bustermon_remove (exclusive_services true 0 (fun _ => 0))
      (bustermon_dt_probe (exclusive_services true 0 (fun _ => 0))
        (described_device [3, 4] ["can0", "can1"]) Kernel.empty).2).map
      (fun r => (bustermon_dt_probe (exclusive_services true 0 (fun _ => 0))
        (described_device [3, 4] ["can0", "can1"]) r.2).1) = some (-EBUSY) ∧
    Kernel.empty.owned = [] := by
  decide

end CanHwmon

/-! ## Ownership of GPIOs across the driver

General facts behind the evaluations above: where the rollback of the binding step is
complete, when the binding step answers the null pointer, and that neither the probe
nor the remove entry point ever gives a GPIO back. -/

namespace CanHwmon


@[simp] theorem gpio_request_owned (sv : Services) (gpio : Nat) (label : String) (k : Kernel) :
    (gpio_request sv gpio label k).2.owned =
      if sv.gpio_request k gpio label = 0 then gpio :: k.owned else k.owned := rfl

@[simp] theorem gpio_direction_input_fst (sv : Services) (gpio : Nat) (k : Kernel) :
    (gpio_direction_input sv gpio k).1 = -(sv.gpio_direction_input k gpio : Int) := rfl

@[simp] theorem gpio_direction_input_owned (sv : Services) (gpio : Nat) (k : Kernel) :
    (gpio_direction_input sv gpio k).2.owned = k.owned := rfl

@[simp] theorem gpio_free_owned (gpio : Nat) (k : Kernel) :
    (gpio_free gpio k).owned = k.owned.erase gpio := rfl

theorem gpio_number_pos (node : device_node) (index : Int)
    (hnz : ∀ g ∈ node.gpios, 0 < g) : 0 < of_get_named_gpio_flags node index := by
  unfold of_get_named_gpio_flags
  rw [List.getD_eq_getElem?_getD]
  cases h : node.gpios[index.toNat]? with
  | none => simp
  | some g =>
    obtain ⟨hlt, hget⟩ := List.getElem?_eq_some_iff.mp h
    have : g ∈ node.gpios := hget ▸ List.getElem_mem hlt
    simpa using hnz g this

/-- One pass of the binding loop either jumps to `err` having given back what it
requested, or goes on with one more GPIO owned and recorded in the table. -/
theorem parse_dt_loop_step (sv : Services) (node : device_node) (cntr : Fin MAX_CANS)
    (rest : List (Fin MAX_CANS)) (pdata : bustermon_platform_data) (retval : Int) (k : Kernel) :
    (∃ r k1, parse_dt_loop sv node (cntr :: rest) pdata retval k = (parse_exit.err pdata r, k1) ∧
      k1.owned = k.owned) ∨
    (∃ k1, parse_dt_loop sv node (cntr :: rest) pdata retval k =
        parse_dt_loop sv node rest
          { pdata with gpios := (Function.update pdata.gpios cntr
              (of_get_named_gpio_flags node
                (of_property_match_string node (can_names.getD cntr.val "")))) } 0 k1 ∧
      k1.owned = of_get_named_gpio_flags node
        (of_property_match_string node (can_names.getD cntr.val "")) :: k.owned) := by
  simp only [parse_dt_loop]
  generalize can_names.getD cntr.val "" = cn
  by_cases h1 : of_property_match_string node cn ≥ 0
  · simp only [h1, if_true]
    generalize of_get_named_gpio_flags node (of_property_match_string node cn) = g
    by_cases h2 : sv.gpio_request k g cn = 0
    · have h2' : ¬ (gpio_request sv g cn k).1 < 0 := by simp [h2]
      simp only [h2', if_false]
      by_cases h3 : (gpio_direction_input sv g (gpio_request sv g cn k).2).1 < 0
      · simp only [h3, if_true]
        exact Or.inl ⟨_, _, rfl, by simp [h2]⟩
      · simp only [h3, if_false]
        have h3' : (gpio_direction_input sv g (gpio_request sv g cn k).2).1 = 0 := by
          simp only [gpio_direction_input_fst] at h3 ⊢
          omega
        rw [h3']
        exact Or.inr ⟨_, rfl, by simp [h2]⟩
    · have h2' : (gpio_request sv g cn k).1 < 0 := by
        simp only [gpio_request_fst]
        omega
      simp only [h2', if_true]
      exact Or.inl ⟨_, _, rfl, by simp [h2]⟩
  · simp only [h1, if_false]
    exact Or.inl ⟨_, _, rfl, rfl⟩

/-- Rollback is complete when no GPIO number of the description is 0: a call that
returns no table leaves exactly the GPIOs owned that were owned before it. -/
theorem parse_dt_rollback_restores_nonzero (sv : Services) (pdev : platform_device) (k : Kernel)
    (hnz : ∀ node, pdev.of_node = some node → ∀ g ∈ node.gpios, 0 < g)
    (hfail : (bustermon_parse_dt sv pdev k).1.table = none) :
    (bustermon_parse_dt sv pdev k).2.owned = k.owned := by
  obtain ⟨of_node, pd, dn⟩ := pdev
  cases of_node with
  | none => rfl
  | some node =>
    have hg := fun index => gpio_number_pos node index (hnz node rfl)
    have u0 : ∀ x : Nat, Function.update (fun _ : Fin MAX_CANS => 0) CAN0 x CAN0 = x := by
      intro x; simp
    have u1 : ∀ x : Nat, Function.update (fun _ : Fin MAX_CANS => 0) CAN0 x CAN1 = 0 := by
      intro x; simp [Function.update, CAN0, CAN1]
    generalize hP : bustermon_parse_dt sv ⟨some node, pd, dn⟩ k = P at *
    simp only [bustermon_parse_dt] at hP
    split_ifs at hP with h1 h2 h3
    · subst hP; rfl
    · subst hP; rfl
    · subst hP; rfl
    · rw [finRange_channels] at hP
      rcases parse_dt_loop_step sv node CAN0 [CAN1] ⟨fun _ => 0, ""⟩ 0 k with
        ⟨r, k1, e1, o1⟩ | ⟨k1, e1, o1⟩
      · rw [e1] at hP
        subst hP
        simp [parse_dt_err, finRange_channels, o1]
      · rw [e1] at hP
        rcases parse_dt_loop_step sv node CAN1 [] _ 0 k1 with ⟨r, k2, e2, o2⟩ | ⟨k2, e2, o2⟩
        · rw [e2] at hP
          subst hP
          have hpos := hg (of_property_match_string node (can_names.getD CAN0.val ""))
          generalize of_get_named_gpio_flags node
            (of_property_match_string node (can_names.getD CAN0.val "")) = g0 at *
          simp [parse_dt_err, finRange_channels, o1, o2, u0, u1, hpos]
        · rw [e2] at hP
          subst hP
          simp [parse_dt_loop, pdata_ptr.table] at hfail

theorem match_string_missing (node : device_node) (s : String) (h : s ∉ node.gpio_names) :
    of_property_match_string node s = -ENODATA := by
  have : ¬ node.gpio_names.indexOf s < node.gpio_names.length := by
    rw [List.indexOf_lt_length]; exact h
  simp [of_property_match_string, this]

/-- Whenever a channel name is missing from a well-formed description and no service
fails, `bustermon_parse_dt` returns the null pointer, not an error pointer. -/
theorem parse_dt_missing_name_is_null (sv : Services) (node : device_node)
    (pd : Option bustermon_platform_data) (dn : String) (k : Kernel)
    (hcount : node.gpio_names.length = node.gpios.length) (hpos : 1 ≤ node.gpios.length)
    (halloc : sv.kzalloc_pdata = true)
    (hreq : ∀ s gpio label, sv.gpio_request s gpio label = 0)
    (hdir : ∀ s gpio, sv.gpio_direction_input s gpio = 0)
    (hmiss : "can0" ∉ node.gpio_names ∨ "can1" ∉ node.gpio_names) :
    (bustermon_parse_dt sv ⟨some node, pd, dn⟩ k).1 = pdata_ptr.NULL := by
  have hpos' : ¬ ((node.gpios.length : Nat) : Int) < 1 := by omega
  have heq : ¬ ((node.gpio_names.length : Nat) : Int) ≠ (node.gpios.length : Nat) := by
    rw [hcount]; simp
  have c0 : can_names.getD 0 "" = "can0" := rfl
  have c1 : can_names.getD 1 "" = "can1" := rfl
  have hneg : ¬ (-ENODATA ≥ 0) := by decide
  by_cases h0 : "can0" ∈ node.gpio_names
  · have h1 : "can1" ∉ node.gpio_names := hmiss.resolve_left (fun h => h h0)
    have l0 := List.indexOf_lt_length.mpr h0
    have n0 : (0 : Int) ≤ (node.gpio_names.indexOf "can0" : Nat) := Int.natCast_nonneg _
    simp only [bustermon_parse_dt, of_count_phandle_with_args, of_property_count_strings,
      hpos', heq, halloc, finRange_channels, parse_dt_loop, can_names_CAN0, can_names_CAN1, c0,
      c1, match_string_found node _ l0, match_string_missing node _ h1, hneg,
      gpio_request_fst, gpio_direction_input_fst, hreq, hdir, if_true, if_false, ge_iff_le, n0,
      Nat.cast_zero, neg_zero, lt_self_iff_false, Bool.not_true, Bool.false_eq_true, ERR_PTR]
  · simp only [bustermon_parse_dt, of_count_phandle_with_args, of_property_count_strings,
      hpos', heq, halloc, finRange_channels, parse_dt_loop, can_names_CAN0, can_names_CAN1, c0,
      c1, match_string_missing node _ h0, hneg, if_true, if_false, Bool.not_true,
      Bool.false_eq_true, ERR_PTR]

@[simp] theorem hwmon_device_register_owned (sv : Services) (k : Kernel) :
    (hwmon_device_register sv k).2.owned = k.owned := rfl

@[simp] theorem device_create_file_owned (sv : Services) (a : device_attribute) (k : Kernel) :
    (device_create_file sv a k).2.owned = k.owned := rfl

@[simp] theorem device_remove_file_owned (a : device_attribute) (k : Kernel) :
    (device_remove_file a k).owned = k.owned := rfl

@[simp] theorem hwmon_device_unregister_owned (sv : Services) (k : Kernel) :
    (hwmon_device_unregister sv k).owned = k.owned := rfl

@[simp] theorem platform_set_drvdata_owned (d : Option bustermon_data) (k : Kernel) :
    (platform_set_drvdata d k).owned = k.owned := rfl

@[simp] theorem dev_set_drvdata_owned (d : Option bustermon_platform_data) (k : Kernel) :
    (dev_set_drvdata d k).owned = k.owned := rfl

/-- Nothing after the binding step gives a GPIO back: whatever the outcome of the
probe, the GPIOs owned when it returns are those owned when `bustermon_parse_dt`
returned. -/
theorem probe_never_frees_gpios (sv : Services) (pdev : platform_device) (k : Kernel) :
    (bustermon_dt_probe sv pdev k).2.owned = (bustermon_parse_dt sv pdev k).2.owned := by
  have hw : ∀ pd s, (bustermon_dt_probe_with sv pdev pd s).2.owned = s.owned := by
    intro pd s
    cases pd with
    | none => rfl
    | some pdata =>
      generalize hP : bustermon_dt_probe_with sv pdev (some pdata) s = P
      simp only [bustermon_dt_probe_with] at hP
      split_ifs at hP <;> subst hP <;>
        simp [err_free_mem, unregister_name, unregister_can0, unregister_can1, unregister_all]
  simp only [bustermon_dt_probe]
  split
  · rfl
  · exact hw _ _
  · exact hw _ _

/-- The remove entry point gives no GPIO back either. -/
theorem remove_never_frees_gpios (sv : Services) (k : Kernel) (r : Int × Kernel)
    (h : bustermon_remove sv k = some r) : r.1 = 0 ∧ r.2.owned = k.owned := by
  unfold bustermon_remove at h
  cases hd : k.pdev_drvdata with
  | none => simp [hd] at h
  | some d =>
    simp only [hd, Option.some.injEq] at h
    subst h
    exact ⟨rfl, rfl⟩

end CanHwmon

/-! ## Binding by name -/

namespace CanHwmon

@[simp] theorem gpio_request_log (sv : Services) (gpio : Nat) (label : String) (k : Kernel) :
    (gpio_request sv gpio label k).2.log =
      k.log ++ [Call.gpio_request gpio label (sv.gpio_request k gpio label)] := rfl

@[simp] theorem gpio_direction_input_log (sv : Services) (gpio : Nat) (k : Kernel) :
    (gpio_direction_input sv gpio k).2.log =
      k.log ++ [Call.gpio_direction_input gpio (sv.gpio_direction_input k gpio)] := rfl

@[simp] theorem gpio_free_log (gpio : Nat) (k : Kernel) :
    (gpio_free gpio k).log = k.log ++ [Call.gpio_free gpio] := rfl

/-- The rollback loop appends one `gpio_free` per table entry that is `> 0`. -/
theorem parse_dt_err_log (pdata : bustermon_platform_data) (k : Kernel) :
    (parse_dt_err pdata k).log = k.log ++
      ((if pdata.gpios CAN0 > 0 then [Call.gpio_free (pdata.gpios CAN0)] else []) ++
       (if pdata.gpios CAN1 > 0 then [Call.gpio_free (pdata.gpios CAN1)] else [])) := by
  simp only [parse_dt_err, finRange_channels, List.foldl_cons, List.foldl_nil]
  by_cases h0 : pdata.gpios CAN0 > 0 <;> by_cases h1 : pdata.gpios CAN1 > 0 <;>
    simp [h0, h1]

end CanHwmon
